import Mathlib

/-!
Verification development for the simple-dns-proxy resolver (main.go).

The Go program is shallowly embedded: the configuration model, the name
normalization used for record lookup, the per-question resolution loop of
handleDNSRequest, and the load/default pipeline of loadConfig and main are
translated into executable Lean definitions.  External collaborators (the
DNS wire library and the network) are modelled at their interface: record
construction from a zone-format string becomes an explicit partial
function, and the upstream relay exchange becomes an oracle consumed one
response per relay attempt.  Each incoming request is handled against one
fixed configuration snapshot, matching the per-snapshot reading of the
handler (the Go code re-reads the shared config under a read lock; a
single snapshot models any execution in which no reload interleaves).
-/

namespace SimpleDnsProxy

/-- Record type number of an address-lookup question (dns.TypeA). -/
def typeA : Nat := 1

/-- Response code NOERROR (dns.RcodeSuccess). -/
def rcodeSuccess : Nat := 0

/-- Response code SERVFAIL (dns.RcodeServerFailure). -/
def rcodeServerFailure : Nat := 2

/-- Response code NXDOMAIN (dns.RcodeNameError). -/
def rcodeNameError : Nat := 3

/-- Response code NOTIMP (dns.RcodeNotImplemented). -/
def rcodeNotImplemented : Nat := 4

/-- One question of an incoming message (dns.Question: name and type). -/
structure Question where
  name : String
  qtype : Nat
deriving DecidableEq

/-- One resource record, reduced to the fields the program produces or
relays: owner name, record type, and the record data rendered as a string
(for an A record, the IPv4 literal). -/
structure RR where
  name : String
  rtype : Nat
  rdata : String
deriving DecidableEq

/-- A DNS message (dns.Msg), reduced to the fields the program reads or
writes: transaction id, response and authoritative flags, response code,
and the question, answer, authority (Ns) and additional (Extra) sections. -/
structure Msg where
  id : Nat
  response : Bool
  authoritative : Bool
  rcode : Nat
  question : List Question
  answer : List RR
  ns : List RR
  extra : List RR
deriving DecidableEq

/-- Per-transport server settings (ServerConfig in main.go). -/
structure ServerConfig where
  enabled : Bool
  port : Int
  interface : String
deriving DecidableEq

/-- The configuration snapshot (Config in main.go).  The Go map
records is embedded as an association list with lookup semantics. -/
structure Config where
  records : List (String × String)
  fallbackDNS : String
  serverUDP : ServerConfig
  serverTCP : ServerConfig
deriving DecidableEq

/-- Embedding of strings.TrimSuffix(s, ".") from the lookup key
computation in handleDNSRequest: drop one trailing dot if present. -/
def trimTrailingDot (s : String) : String :=
  if s.data.getLast? = some '.' then String.mk s.data.dropLast else s

/-- Embedding of strings.ToLower as used on DNS names (ASCII case
folding, the only case relevant to the configured hostnames). -/
def lowerString (s : String) : String :=
  String.mk (s.data.map Char.toLower)

/-- The lookup key computed by handleDNSRequest:
strings.ToLower(strings.TrimSuffix(q.Name, ".")). -/
def normalizeName (s : String) : String :=
  lowerString (trimTrailingDot s)

/-- Splitting a character list on the dot separator (helper for the
IPv4 literal shape check). -/
def splitOnDot : List Char → List (List Char)
  | [] => [[]]
  | c :: cs =>
    let r := splitOnDot cs
    if c = '.' then [] :: r
    else (c :: r.headD []) :: r.tail

/-- Numeric value of a decimal digit string. -/
def octetVal (cs : List Char) : Nat :=
  cs.foldl (fun a c => a * 10 + (c.toNat - 48)) 0

/-- One dotted-quad field: one to three decimal digits, value at most
255, no leading zero (net.ParseIP rejects leading zeros). -/
def validOctet (cs : List Char) : Bool :=
  !cs.isEmpty && cs.length ≤ 3 && cs.all Char.isDigit &&
    octetVal cs ≤ 255 && (cs = ['0'] || cs.head? ≠ some '0')

/-- Well-formed dotted-quad IPv4 literal: exactly four valid fields. -/
def validIPv4 (s : String) : Bool :=
  match splitOnDot s.data with
  | [a, b, c, d] => validOctet a && validOctet b && validOctet c && validOctet d
  | _ => false

/-- Fully-qualified form of a name: one trailing dot is appended when
missing (the zone parser qualifies relative names against origin "."). -/
def fqdn (s : String) : String :=
  if s.data.getLast? = some '.' then s else String.mk (s.data ++ ['.'])

/-- Modelled from the spec: construction of an A resource record from the
zone-format string "name A ip" (library call dns.NewRR, outside this
repository).  Per the spec a local record fails to construct exactly when
the configured address is malformed, so the model succeeds iff the
address is a well-formed IPv4 literal; the owner name is made fully
qualified as the zone parser does. -/
def newRR_A (name ip : String) : Option RR :=
  if validIPv4 ip then some { name := fqdn name, rtype := typeA, rdata := ip } else none

/-- Record lookup against the snapshot (Go map indexing). -/
def lookupRecord (cfg : Config) (key : String) : Option String :=
  cfg.records.lookup key

/-- Modelled from the spec: the network seen by the relay client.  Each
relay attempt consumes the next prepared outcome: some upstream message
on a successful exchange, none when the exchange fails (timeout,
connection error, malformed upstream reply). -/
def RelayOracle : Type := Nat → Option Msg

/-- One relay call as performed by handleDNSRequest: the message sent
(the original incoming message), the transport, and the target address. -/
structure Call where
  sent : Msg
  net : String
  addr : String
deriving DecidableEq

/-- Handler working state while iterating over the questions: the reply
message under construction and the relay calls made so far. -/
structure HState where
  msg : Msg
  calls : List Call
deriving DecidableEq

/-- Embedding of msg.SetReply(r): reply flag set, transaction id copied,
response code NOERROR, questions copied, all record sections empty. -/
def setReply (r : Msg) : Msg :=
  { id := r.id, response := true, authoritative := false, rcode := rcodeSuccess,
    question := r.question, answer := [], ns := [], extra := [] }

/-- The fallthrough branch of the question loop (main.go lines 184-198):
with no fallback configured set NXDOMAIN; otherwise exchange the original
message with the fallback at port 53 over the client's transport, and on
success replace the whole reply by the upstream message, on failure set
SERVFAIL. -/
def relayOrNX (cfg : Config) (clientNet : String) (ex : RelayOracle) (r : Msg)
    (st : HState) : HState :=
  if cfg.fallbackDNS = "" then
    { st with msg := { st.msg with rcode := rcodeNameError } }
  else
    let call : Call := { sent := r, net := clientNet, addr := cfg.fallbackDNS ++ ":53" }
    match ex st.calls.length with
    | some upstream => { msg := upstream, calls := st.calls ++ [call] }
    | none => { msg := { st.msg with rcode := rcodeServerFailure }, calls := st.calls ++ [call] }

/-- One iteration of the question loop of handleDNSRequest (main.go lines
149-199): for an A question with a locally configured name, append the
constructed record on success or set SERVFAIL on construction failure;
every other case falls through to the relay/NXDOMAIN branch. -/
def handleQuestion (cfg : Config) (clientNet : String) (ex : RelayOracle) (r : Msg)
    (st : HState) (q : Question) : HState :=
  if q.qtype = typeA then
    match lookupRecord cfg (normalizeName q.name) with
    | some ip =>
      match newRR_A q.name ip with
      | some rr => { st with msg := { st.msg with answer := st.msg.answer ++ [rr] } }
      | none => { st with msg := { st.msg with rcode := rcodeServerFailure } }
    | none => relayOrNX cfg clientNet ex r st
  else relayOrNX cfg clientNet ex r st

/-- Handler state before the first question: the reply from SetReply with
the authoritative flag set, and no relay calls yet. -/
def initState (r : Msg) : HState :=
  { msg := { setReply r with authoritative := true }, calls := [] }

/-- Handler state after processing a prefix of the questions. -/
def stateAfter (cfg : Config) (clientNet : String) (ex : RelayOracle) (r : Msg)
    (qs : List Question) : HState :=
  qs.foldl (handleQuestion cfg clientNet ex r) (initState r)

/-- Embedding of handleDNSRequest: the message written back after
processing every question of the incoming message. -/
def handleDNSRequest (cfg : Config) (clientNet : String) (ex : RelayOracle) (r : Msg) : Msg :=
  (stateAfter cfg clientNet ex r r.question).msg

/-- The relay calls performed while handling one incoming message. -/
def relayCallsMade (cfg : Config) (clientNet : String) (ex : RelayOracle) (r : Msg) : List Call :=
  (stateAfter cfg clientNet ex r r.question).calls

/-- Failure classes of loadConfig: the file read failed, or the YAML did
not unmarshal. -/
inductive LoadError where
  | readError
  | parseError
deriving DecidableEq

/-- Port defaulting done inside loadConfig (main.go lines 83-88): each
transport port becomes 53 when non-positive. -/
def applyPortDefaults (c : Config) : Config :=
  let c1 := if c.serverUDP.port ≤ 0 then
    { c with serverUDP := { c.serverUDP with port := 53 } } else c
  if c1.serverTCP.port ≤ 0 then
    { c1 with serverTCP := { c1.serverTCP with port := 53 } } else c1

/-- Embedding of loadConfig over the stored snapshot: the input models
the combined outcome of reading the file and unmarshalling it (both
external collaborators).  On failure the function returns before touching
the stored snapshot; on success the snapshot is replaced and its ports
are defaulted.  Returns the new stored snapshot and the error, if any. -/
def loadConfig (stored : Config) (input : Except LoadError Config) :
    Config × Option LoadError :=
  match input with
  | .error e => (stored, some e)
  | .ok newConfig => (applyPortDefaults newConfig, none)

/-- Enabled-flag defaulting done only in main (main.go lines 222-226):
when neither transport is enabled, both become enabled. -/
def applyEnabledDefault (c : Config) : Config :=
  if !c.serverUDP.enabled && !c.serverTCP.enabled then
    { c with serverUDP := { c.serverUDP with enabled := true },
             serverTCP := { c.serverTCP with enabled := true } }
  else c

/-- The snapshot in effect when main starts its listeners: main re-applies
the port defaults (idempotent over loadConfig's own defaulting) and then
the enabled-flag default (main.go lines 213-227). -/
def mainStartupSnapshot (loaded : Config) : Config :=
  applyEnabledDefault (applyPortDefaults loaded)

/-- The servers counter of main: one per enabled transport of the startup
snapshot (main.go lines 236-275). -/
def listenersStarted (c : Config) : Nat :=
  (if c.serverUDP.enabled then 1 else 0) + (if c.serverTCP.enabled then 1 else 0)

/-- The fatal zero-listener check of main (main.go lines 277-279):
log.Fatalf fires exactly when the servers counter is zero. -/
def startupFatalNoListeners (c : Config) : Bool :=
  listenersStarted c == 0

/-- Test for a name ending in two dots, i.e. carrying an empty final
label.  Names decoded from the DNS wire format never contain an empty
label, so a question name of an incoming message never satisfies this. -/
def endsTwoDots (s : String) : Bool :=
  s.data.getLast? = some '.' && s.data.dropLast.getLast? = some '.'

/-- Local construction failure of an A record for the question: the
question is address-lookup, its normalized name is configured, and the
configured address is malformed. -/
abbrev localMalformed (cfg : Config) (q : Question) : Prop :=
  q.qtype = typeA ∧ (lookupRecord cfg (normalizeName q.name)).map validIPv4 = some false

/-- The question reaches the relay branch with a fallback configured: it
is not a locally matched address-lookup and the fallback is non-empty. -/
abbrev relayAttempted (cfg : Config) (q : Question) : Prop :=
  ¬(q.qtype = typeA ∧ (lookupRecord cfg (normalizeName q.name)).isSome = true) ∧
    cfg.fallbackDNS ≠ ""

/-- A snapshot with one local record and no fallback. -/
def cfgLocal : Config :=
  { records := [("a.test", "10.0.0.1")], fallbackDNS := "",
    serverUDP := { enabled := true, port := 53, interface := "" },
    serverTCP := { enabled := true, port := 53, interface := "" } }

/-- A parsed configuration document with both transports explicitly
disabled and unspecified ports. -/
def cfgBothOff : Config :=
  { records := [], fallbackDNS := "",
    serverUDP := { enabled := false, port := 0, interface := "" },
    serverTCP := { enabled := false, port := 0, interface := "" } }

/-- A snapshot with one local record and a fallback resolver. -/
def cfgFb : Config :=
  { records := [("local.test", "10.0.0.9")], fallbackDNS := "9.9.9.9",
    serverUDP := { enabled := true, port := 53, interface := "" },
    serverTCP := { enabled := true, port := 53, interface := "" } }

/-- A snapshot whose single record key carries an uppercase letter. -/
def cfgUpperKey : Config :=
  { records := [("Weird.Test", "10.0.0.2")], fallbackDNS := "",
    serverUDP := { enabled := true, port := 53, interface := "" },
    serverTCP := { enabled := true, port := 53, interface := "" } }

/-- A non-address question (MX). -/
def qMX : Question := { name := "mail.test.", qtype := 15 }

/-- An address question matching cfgLocal in a different letter case. -/
def qUpperA : Question := { name := "A.Test.", qtype := 1 }

/-- An address question matching no configured record. -/
def qMissA : Question := { name := "b.test.", qtype := 1 }

/-- An address question matching no record of cfgFb. -/
def qA : Question := { name := "x.test.", qtype := 1 }

/-- A second address question matching no record of cfgFb. -/
def qA2 : Question := { name := "y.test.", qtype := 1 }

/-- An address question matching the record of cfgFb. -/
def qLocalA : Question := { name := "local.test.", qtype := 1 }

/-- An address question whose lowercase name misses the denormalized key
of cfgUpperKey. -/
def qWeird : Question := { name := "weird.test.", qtype := 1 }

/-- An incoming message carrying one question. -/
def mkReq (q : Question) : Msg :=
  { id := 7, response := false, authoritative := false, rcode := 0,
    question := [q], answer := [], ns := [], extra := [] }

/-- An incoming message carrying two relayable questions. -/
def reqTwoRelay : Msg :=
  { mkReq qA with question := [qA, qA2] }

/-- An incoming message carrying two relayable questions followed by a
locally answered one. -/
def reqRelayThenLocal : Msg :=
  { mkReq qA with question := [qA, qA2, qLocalA] }

/-- An upstream response with an answer and an additional record. -/
def upMsg1 : Msg :=
  { id := 7, response := true, authoritative := false, rcode := 0,
    question := [qA], answer := [{ name := "x.test.", rtype := 1, rdata := "1.1.1.1" }],
    ns := [], extra := [{ name := "x.test.", rtype := 2, rdata := "ns.test." }] }

/-- A second, distinct upstream response. -/
def upMsg2 : Msg :=
  { id := 7, response := true, authoritative := false, rcode := 0,
    question := [qA2], answer := [], ns := [], extra := [] }

/-- An upstream response that itself reports SERVFAIL. -/
def upServfail : Msg :=
  { id := 7, response := true, authoritative := false, rcode := 2,
    question := [qA], answer := [], ns := [], extra := [] }

/-- A network on which every relay exchange fails. -/
def oracleFail : RelayOracle := fun _ => none

/-- A network whose upstream always answers with upMsg1. -/
def oracleUp1 : RelayOracle := fun _ => some upMsg1

/-- A network whose upstream always answers with the SERVFAIL reply. -/
def oracleUpServfail : RelayOracle := fun _ => some upServfail

/-- A network answering upMsg1 to the first exchange and upMsg2 to every
later one. -/
def oracleTwo : RelayOracle := fun k => if k = 0 then some upMsg1 else some upMsg2

end SimpleDnsProxy

namespace SimpleDnsProxy

example : normalizeName "A.Test." = "a.test" := by decide
example : normalizeName "a.test" = "a.test" := by decide
example : validIPv4 "10.0.0.1" = true := by decide
example : validIPv4 "10.0.0.256" = false := by decide
example : validIPv4 "10.0.0" = false := by decide
example : validIPv4 "01.2.3.4" = false := by decide

/-- Character value of ASCII case folding: letters A-Z move up by 32,
every other character is unchanged. -/
theorem toNat_toLower (c : Char) :
    (Char.toLower c).toNat = if 65 ≤ c.toNat ∧ c.toNat ≤ 90 then c.toNat + 32 else c.toNat := by
  simp only [Char.toLower]
  split
  next h =>
    have hv : (c.toNat + 32).isValidChar := Or.inl (by omega)
    rw [Char.ofNat, dif_pos hv]
    simp [Char.ofNatAux, Char.toNat, UInt32.toNat]
  next h =>
    rfl

/-- Uppercase test rephrased over the scalar value. -/
theorem isUpper_eq (c : Char) : c.isUpper = decide (65 ≤ c.toNat ∧ c.toNat ≤ 90) := by
  simp [Char.isUpper, UInt32.le_def, BitVec.le_def, Char.toNat, UInt32.toNat]

/-- Case folding never produces an uppercase letter. -/
theorem isUpper_toLower (c : Char) : (Char.toLower c).isUpper = false := by
  rw [isUpper_eq, toNat_toLower]
  split
  next h => simp; omega
  next h => simpa using h

/-- Case folding maps only the dot to the dot. -/
theorem toLower_eq_dot {c : Char} (h : Char.toLower c = '.') : c = '.' := by
  have h46 : (Char.toLower c).toNat = 46 := by rw [h]; rfl
  rw [toNat_toLower] at h46
  by_cases hc : 65 ≤ c.toNat ∧ c.toNat ≤ 90
  · rw [if_pos hc] at h46; omega
  · rw [if_neg hc] at h46
    have h' := Char.ofNat_toNat c
    rw [h46] at h'
    exact h'.symm

/-- C1 counterexample: with an empty fallback, the handler answers a
single MX question with NXDOMAIN (NameError, 3), not NOTIMP
(NotImplemented, 4): every non-A question falls through to the relay
branch, whose empty-fallback arm sets NameError. -/
theorem c1_counterexample :
    cfgLocal.fallbackDNS = "" ∧ (mkReq qMX).question = [qMX] ∧ qMX.qtype ≠ typeA ∧
    (handleDNSRequest cfgLocal "udp" oracleFail (mkReq qMX)).rcode = rcodeNameError ∧
    (handleDNSRequest cfgLocal "udp" oracleFail (mkReq qMX)).rcode ≠ rcodeNotImplemented :=
  ⟨rfl, rfl, by decide, by decide, by decide⟩

/-- C1 (amended): for every snapshot with an empty fallback, handling a
message whose single question has a record type other than A produces a
reply with response code NXDOMAIN (NameError), not NOTIMP. -/
theorem c1_nonA_emptyFallback_nameError
    (cfg : Config) (net : String) (ex : RelayOracle) (r : Msg) (q : Question)
    (hq : r.question = [q]) (ht : q.qtype ≠ typeA) (hf : cfg.fallbackDNS = "") :
    (handleDNSRequest cfg net ex r).rcode = rcodeNameError := by
  simp [handleDNSRequest, stateAfter, hq, handleQuestion, ht, relayOrNX, hf]

/-- C1 witness: the amended theorem applied to the concrete MX question
against the concrete no-fallback snapshot. -/
theorem c1_witness :
    (handleDNSRequest cfgLocal "udp" oracleFail (mkReq qMX)).rcode = rcodeNameError :=
  c1_nonA_emptyFallback_nameError cfgLocal "udp" oracleFail (mkReq qMX) qMX rfl
    (by decide) rfl

/-- C2: an A question whose normalized name is configured with a
well-formed IPv4 address gets a NOERROR reply with exactly one answer
binding the queried name (in fully qualified form) to that address,
whatever the letter case and trailing-dot shape of the queried name. -/
theorem c2_local_hit_noerror_single_answer
    (cfg : Config) (net : String) (ex : RelayOracle) (r : Msg) (q : Question) (ip : String)
    (hq : r.question = [q]) (ht : q.qtype = typeA)
    (hl : lookupRecord cfg (normalizeName q.name) = some ip)
    (hip : validIPv4 ip = true) :
    (handleDNSRequest cfg net ex r).rcode = rcodeSuccess ∧
    (handleDNSRequest cfg net ex r).answer = [{ name := fqdn q.name, rtype := typeA, rdata := ip }] := by
  constructor <;>
    simp [handleDNSRequest, stateAfter, hq, handleQuestion, ht, hl, newRR_A, hip,
      initState, setReply]

/-- C2 witness: the theorem applied to the uppercase query "A.Test."
against the snapshot configuring "a.test" to 10.0.0.1. -/
theorem c2_witness :
    (handleDNSRequest cfgLocal "udp" oracleFail (mkReq qUpperA)).rcode = rcodeSuccess ∧
    (handleDNSRequest cfgLocal "udp" oracleFail (mkReq qUpperA)).answer =
      [{ name := fqdn qUpperA.name, rtype := typeA, rdata := "10.0.0.1" }] :=
  c2_local_hit_noerror_single_answer cfgLocal "udp" oracleFail (mkReq qUpperA) qUpperA
    "10.0.0.1" rfl rfl (by decide) (by decide)

/-- C3: with an empty fallback, a single question whose normalized name
is not configured gets NXDOMAIN and no answer record is added. -/
theorem c3_miss_emptyFallback_nxdomain
    (cfg : Config) (net : String) (ex : RelayOracle) (r : Msg) (q : Question)
    (hq : r.question = [q]) (hf : cfg.fallbackDNS = "")
    (hl : lookupRecord cfg (normalizeName q.name) = none) :
    (handleDNSRequest cfg net ex r).rcode = rcodeNameError ∧
    (handleDNSRequest cfg net ex r).answer = [] := by
  by_cases ht : q.qtype = typeA <;>
    simp [handleDNSRequest, stateAfter, hq, handleQuestion, ht, hl, relayOrNX, hf,
      initState, setReply]

/-- C3 witness: the theorem applied to the unconfigured name "b.test."
against the no-fallback snapshot. -/
theorem c3_witness :
    (handleDNSRequest cfgLocal "udp" oracleFail (mkReq qMissA)).rcode = rcodeNameError ∧
    (handleDNSRequest cfgLocal "udp" oracleFail (mkReq qMissA)).answer = [] :=
  c3_miss_emptyFallback_nxdomain cfgLocal "udp" oracleFail (mkReq qMissA) qMissA rfl rfl
    (by decide)

/-- C6: a failed load (read or parse error) reports the error, leaves the
stored snapshot exactly unchanged, and any lookup handled afterwards
behaves exactly as before the failed reload. -/
theorem c6_failed_load_keeps_snapshot
    (stored : Config) (e : LoadError) (net : String) (ex : RelayOracle) (r : Msg) :
    loadConfig stored (.error e) = (stored, some e) ∧
    handleDNSRequest (loadConfig stored (.error e)).1 net ex r =
      handleDNSRequest stored net ex r :=
  ⟨rfl, rfl⟩

/-- Componentwise description of the port defaulting in loadConfig. -/
theorem applyPortDefaults_spec (c : Config) :
    (applyPortDefaults c).serverUDP.port = (if c.serverUDP.port ≤ 0 then 53 else c.serverUDP.port) ∧
    (applyPortDefaults c).serverTCP.port = (if c.serverTCP.port ≤ 0 then 53 else c.serverTCP.port) ∧
    (applyPortDefaults c).serverUDP.enabled = c.serverUDP.enabled ∧
    (applyPortDefaults c).serverTCP.enabled = c.serverTCP.enabled ∧
    (applyPortDefaults c).records = c.records ∧
    (applyPortDefaults c).fallbackDNS = c.fallbackDNS := by
  unfold applyPortDefaults
  by_cases h1 : c.serverUDP.port ≤ 0 <;> by_cases h2 : c.serverTCP.port ≤ 0 <;>
    simp [h1, h2]

/-- Componentwise description of the enabled-flag defaulting in main. -/
theorem applyEnabledDefault_enabled (c : Config) :
    (applyEnabledDefault c).serverUDP.enabled = (c.serverUDP.enabled || !c.serverTCP.enabled) ∧
    (applyEnabledDefault c).serverTCP.enabled = (c.serverTCP.enabled || !c.serverUDP.enabled) := by
  unfold applyEnabledDefault
  cases hu : c.serverUDP.enabled <;> cases ht : c.serverTCP.enabled <;> simp [hu, ht]

/-- C4 counterexample: a document with both transports explicitly
disabled is treated by the startup defaulting as unspecified, so both
listeners start (the servers counter is 2) and the fatal zero-listener
branch does not fire; the process runs instead of terminating. -/
theorem c4_counterexample :
    cfgBothOff.serverUDP.enabled = false ∧ cfgBothOff.serverTCP.enabled = false ∧
    listenersStarted (mainStartupSnapshot (loadConfig cfgLocal (.ok cfgBothOff)).1) = 2 ∧
    startupFatalNoListeners (mainStartupSnapshot (loadConfig cfgLocal (.ok cfgBothOff)).1) = false :=
  ⟨rfl, rfl, by decide, by decide⟩

/-- C4 (amended): the enabled-flag defaulting cannot distinguish
explicitly-false flags from absent ones, so after defaulting at least one
listener always starts and the fatal zero-listener check of main never
fires: startup with both flags false proceeds with two listeners. -/
theorem c4_amended_startup_never_zero_listeners (c : Config) :
    1 ≤ listenersStarted (mainStartupSnapshot c) ∧
    startupFatalNoListeners (mainStartupSnapshot c) = false := by
  obtain ⟨hu, ht⟩ := applyEnabledDefault_enabled (applyPortDefaults c)
  obtain ⟨-, -, hue, hte, -, -⟩ := applyPortDefaults_spec c
  have h : 1 ≤ listenersStarted (mainStartupSnapshot c) := by
    unfold mainStartupSnapshot listenersStarted
    rw [hu, ht, hue, hte]
    cases c.serverUDP.enabled <;> cases c.serverTCP.enabled <;> simp
  refine ⟨h, ?_⟩
  unfold startupFatalNoListeners
  simp only [beq_eq_false_iff_ne]
  omega

/-- C5 counterexample: loading a document with neither transport enabled
succeeds, but the stored snapshot keeps both enabled flags false: the
enable-both normalization claimed for every load is not applied by the
loader, so reload snapshots are not fully normalized. -/
theorem c5_counterexample :
    cfgBothOff.serverUDP.enabled = false ∧ cfgBothOff.serverTCP.enabled = false ∧
    (loadConfig cfgLocal (.ok cfgBothOff)).2 = none ∧
    (loadConfig cfgLocal (.ok cfgBothOff)).1.serverUDP.enabled = false ∧
    (loadConfig cfgLocal (.ok cfgBothOff)).1.serverTCP.enabled = false :=
  ⟨rfl, rfl, rfl, by decide, by decide⟩

/-- C5 (amended): every successful load normalizes only the ports (53
when non-positive) and otherwise stores the parsed document verbatim; the
enable-both default is applied to the snapshot only by main at startup,
where it yields the stated enabled flags. -/
theorem c5_amended_load_defaults_ports_only (stored c : Config) :
    (loadConfig stored (.ok c)).2 = none ∧
    (loadConfig stored (.ok c)).1.serverUDP.port =
      (if c.serverUDP.port ≤ 0 then 53 else c.serverUDP.port) ∧
    (loadConfig stored (.ok c)).1.serverTCP.port =
      (if c.serverTCP.port ≤ 0 then 53 else c.serverTCP.port) ∧
    (loadConfig stored (.ok c)).1.serverUDP.enabled = c.serverUDP.enabled ∧
    (loadConfig stored (.ok c)).1.serverTCP.enabled = c.serverTCP.enabled ∧
    (loadConfig stored (.ok c)).1.records = c.records ∧
    (loadConfig stored (.ok c)).1.fallbackDNS = c.fallbackDNS ∧
    (mainStartupSnapshot c).serverUDP.enabled = (c.serverUDP.enabled || !c.serverTCP.enabled) ∧
    (mainStartupSnapshot c).serverTCP.enabled = (c.serverTCP.enabled || !c.serverUDP.enabled) := by
  obtain ⟨h1, h2, h3, h4, h5, h6⟩ := applyPortDefaults_spec c
  obtain ⟨hu, ht⟩ := applyEnabledDefault_enabled (applyPortDefaults c)
  refine ⟨rfl, h1, h2, h3, h4, h5, h6, ?_, ?_⟩
  · unfold mainStartupSnapshot; rw [hu, h3, h4]
  · unfold mainStartupSnapshot; rw [ht, h3, h4]

end SimpleDnsProxy

namespace SimpleDnsProxy

/-- Calls recorded by the relay branch when a fallback is configured. -/
theorem relayOrNX_calls (cfg : Config) (net : String) (ex : RelayOracle) (r : Msg)
    (st : HState) (hf : cfg.fallbackDNS ≠ "") :
    (relayOrNX cfg net ex r st).calls =
      st.calls ++ [{ sent := r, net := net, addr := cfg.fallbackDNS ++ ":53" }] := by
  unfold relayOrNX
  rw [if_neg hf]
  cases ex st.calls.length <;> rfl

/-- On a successful exchange the relay branch replaces the whole reply by
the upstream message. -/
theorem relayOrNX_msg_ok (cfg : Config) (net : String) (ex : RelayOracle) (r : Msg)
    (st : HState) (up : Msg) (hf : cfg.fallbackDNS ≠ "")
    (hex : ex st.calls.length = some up) :
    (relayOrNX cfg net ex r st).msg = up := by
  unfold relayOrNX
  rw [if_neg hf, hex]

/-- On a failed exchange the relay branch only sets SERVFAIL. -/
theorem relayOrNX_msg_err (cfg : Config) (net : String) (ex : RelayOracle) (r : Msg)
    (st : HState) (hf : cfg.fallbackDNS ≠ "")
    (hex : ex st.calls.length = none) :
    (relayOrNX cfg net ex r st).msg = { st.msg with rcode := rcodeServerFailure } := by
  unfold relayOrNX
  rw [if_neg hf, hex]

/-- A question that is not a locally matched address-lookup falls through
to the relay branch. -/
theorem handleQuestion_relay (cfg : Config) (net : String) (ex : RelayOracle) (r : Msg)
    (st : HState) (q : Question)
    (hnl : ¬(q.qtype = typeA ∧ (lookupRecord cfg (normalizeName q.name)).isSome = true)) :
    handleQuestion cfg net ex r st q = relayOrNX cfg net ex r st := by
  unfold handleQuestion
  by_cases ht : q.qtype = typeA
  · have hl : lookupRecord cfg (normalizeName q.name) = none := by
      cases hl : lookupRecord cfg (normalizeName q.name) with
      | none => rfl
      | some ip => exact absurd ⟨ht, by rw [hl]; rfl⟩ hnl
    rw [if_pos ht, hl]
  · rw [if_neg ht]

/-- C8: a single-question message not answered locally, under a non-empty
fallback, causes exactly one relay exchange carrying the original
incoming message to the fallback address at port 53 over the requester's
transport, and a successful exchange makes the reply the full upstream
response verbatim. -/
theorem c8_relay_sends_original_returns_upstream
    (cfg : Config) (net : String) (ex : RelayOracle) (r : Msg) (q : Question)
    (hq : r.question = [q])
    (hnl : ¬(q.qtype = typeA ∧ (lookupRecord cfg (normalizeName q.name)).isSome = true))
    (hf : cfg.fallbackDNS ≠ "") :
    relayCallsMade cfg net ex r = [{ sent := r, net := net, addr := cfg.fallbackDNS ++ ":53" }] ∧
    ∀ up, ex 0 = some up → handleDNSRequest cfg net ex r = up := by
  have hstep : stateAfter cfg net ex r r.question = relayOrNX cfg net ex r (initState r) := by
    rw [hq]
    unfold stateAfter
    simp only [List.foldl_cons, List.foldl_nil]
    exact handleQuestion_relay cfg net ex r (initState r) q hnl
  constructor
  · unfold relayCallsMade
    rw [hstep, relayOrNX_calls cfg net ex r (initState r) hf]
    rfl
  · intro up hex
    unfold handleDNSRequest
    rw [hstep]
    exact relayOrNX_msg_ok cfg net ex r (initState r) up hf hex

/-- C8 witness: the theorem applied to the concrete question "x.test."
against the fallback snapshot, with an upstream that answers upMsg1. -/
theorem c8_witness :
    relayCallsMade cfgFb "udp" oracleUp1 (mkReq qA) =
      [{ sent := mkReq qA, net := "udp", addr := "9.9.9.9:53" }] ∧
    handleDNSRequest cfgFb "udp" oracleUp1 (mkReq qA) = upMsg1 := by
  obtain ⟨h1, h2⟩ := c8_relay_sends_original_returns_upstream cfgFb "udp" oracleUp1
    (mkReq qA) qA rfl (by decide) (by decide)
  exact ⟨by rw [h1]; rfl, h2 upMsg1 rfl⟩

/-- C9 (amended): every successful relay replaces the entire reply built
so far; hence when the last question of the message relays successfully,
the final reply is exactly that upstream response, and whatever was
accumulated for the earlier questions is discarded.  Questions processed
after the last relay may still modify the replaced reply, which is why
the unrestricted form of the claim fails. -/
theorem c9_amended_last_relay_replaces_reply
    (cfg : Config) (net : String) (ex : RelayOracle) (r : Msg) (qs : List Question)
    (q : Question) (up : Msg)
    (hq : r.question = qs ++ [q])
    (hnl : ¬(q.qtype = typeA ∧ (lookupRecord cfg (normalizeName q.name)).isSome = true))
    (hf : cfg.fallbackDNS ≠ "")
    (hex : ex (stateAfter cfg net ex r qs).calls.length = some up) :
    handleDNSRequest cfg net ex r = up := by
  unfold handleDNSRequest
  rw [hq]
  unfold stateAfter
  rw [List.foldl_append]
  simp only [List.foldl_cons, List.foldl_nil]
  rw [handleQuestion_relay cfg net ex r _ q hnl]
  exact relayOrNX_msg_ok cfg net ex r _ up hf hex

/-- C9 counterexample: a three-question message whose first two questions
relay successfully (upMsg1 then upMsg2) and whose third is answered
locally.  The final reply is not the upstream response of the last
relayed question: it is upMsg2 with the local answer appended. -/
theorem c9_counterexample :
    reqRelayThenLocal.question = [qA, qA2, qLocalA] ∧
    cfgFb.fallbackDNS ≠ "" ∧
    oracleTwo 0 = some upMsg1 ∧ oracleTwo 1 = some upMsg2 ∧
    relayCallsMade cfgFb "udp" oracleTwo reqRelayThenLocal =
      [{ sent := reqRelayThenLocal, net := "udp", addr := "9.9.9.9:53" },
       { sent := reqRelayThenLocal, net := "udp", addr := "9.9.9.9:53" }] ∧
    handleDNSRequest cfgFb "udp" oracleTwo reqRelayThenLocal ≠ upMsg1 ∧
    handleDNSRequest cfgFb "udp" oracleTwo reqRelayThenLocal ≠ upMsg2 ∧
    handleDNSRequest cfgFb "udp" oracleTwo reqRelayThenLocal =
      { upMsg2 with answer := upMsg2.answer ++
          [{ name := "local.test.", rtype := typeA, rdata := "10.0.0.9" }] } :=
  ⟨rfl, by decide, rfl, rfl, by decide, by decide, by decide, by decide⟩

/-- C9 witness: the amended theorem applied to a two-question message
whose both questions relay; the reply is the second upstream response. -/
theorem c9_witness :
    handleDNSRequest cfgFb "udp" oracleTwo reqTwoRelay = upMsg2 :=
  c9_amended_last_relay_replaces_reply cfgFb "udp" oracleTwo reqTwoRelay [qA] qA2 upMsg2
    rfl (by decide) (by decide) (by decide)

/-- C7 (amended): for a single-question message the reply carries
SERVFAIL exactly when the question is a locally matched address-lookup
with a malformed configured address, or it was relayed and the exchange
failed, or it was relayed, the exchange succeeded, and the upstream
response itself carries SERVFAIL (the upstream message is used verbatim,
which the original iff did not account for).  The handler is a total
function, so it returns normally in every case. -/
theorem c7_amended_servfail_iff
    (cfg : Config) (net : String) (ex : RelayOracle) (r : Msg) (q : Question)
    (hq : r.question = [q]) :
    ((handleDNSRequest cfg net ex r).rcode = rcodeServerFailure ↔
      (localMalformed cfg q ∨
       (relayAttempted cfg q ∧ ex 0 = none) ∨
       (relayAttempted cfg q ∧ ∃ up, ex 0 = some up ∧ up.rcode = rcodeServerFailure))) := by
  unfold handleDNSRequest
  rw [hq]
  unfold stateAfter
  simp only [List.foldl_cons, List.foldl_nil]
  by_cases ht : q.qtype = typeA
  · cases hl : lookupRecord cfg (normalizeName q.name) with
    | some ip =>
      cases hv : validIPv4 ip with
      | true =>
        simp [handleQuestion, ht, hl, newRR_A, hv, initState, setReply, localMalformed,
          relayAttempted, rcodeSuccess, rcodeServerFailure]
      | false =>
        simp [handleQuestion, ht, hl, newRR_A, hv, initState, setReply, localMalformed,
          relayAttempted, rcodeSuccess, rcodeServerFailure]
    | none =>
      rw [handleQuestion_relay cfg net ex r (initState r) q (by simp [ht, hl])]
      by_cases hf : cfg.fallbackDNS = ""
      · simp [relayOrNX, hf, initState, setReply, localMalformed, hl, relayAttempted,
          rcodeSuccess, rcodeNameError, rcodeServerFailure]
      · cases hex : ex 0 with
        | none =>
          rw [relayOrNX_msg_err cfg net ex r (initState r) hf hex]
          simp [initState, setReply, localMalformed, hl, relayAttempted, ht, hf, hex,
            rcodeServerFailure]
        | some up =>
          rw [relayOrNX_msg_ok cfg net ex r (initState r) up hf hex]
          simp [localMalformed, hl, relayAttempted, ht, hf, hex, rcodeServerFailure]
  · rw [handleQuestion_relay cfg net ex r (initState r) q (by simp [ht])]
    by_cases hf : cfg.fallbackDNS = ""
    · simp [relayOrNX, hf, initState, setReply, localMalformed, ht, relayAttempted,
        rcodeNameError, rcodeServerFailure, rcodeSuccess]
    · cases hex : ex 0 with
      | none =>
        rw [relayOrNX_msg_err cfg net ex r (initState r) hf hex]
        simp [initState, setReply, localMalformed, ht, relayAttempted, hf, hex,
          rcodeServerFailure]
      | some up =>
        rw [relayOrNX_msg_ok cfg net ex r (initState r) up hf hex]
        simp [localMalformed, ht, relayAttempted, hf, hex, rcodeServerFailure]

/-- C7 counterexample: a relayed question whose exchange succeeds but
whose upstream response itself reports SERVFAIL.  The reply carries
SERVFAIL although no local record construction failed and the relay did
not fail, so the claimed exact characterization is false. -/
theorem c7_counterexample :
    (mkReq qA).question = [qA] ∧
    (handleDNSRequest cfgFb "udp" oracleUpServfail (mkReq qA)).rcode = rcodeServerFailure ∧
    ¬ localMalformed cfgFb qA ∧
    relayAttempted cfgFb qA ∧
    oracleUpServfail 0 ≠ none :=
  ⟨rfl, by decide, by decide, by decide, by decide⟩

/-- C7 witness: the amended theorem applied to a failing relay exchange,
concluding that the concrete reply carries SERVFAIL. -/
theorem c7_witness :
    (handleDNSRequest cfgFb "udp" oracleFail (mkReq qA)).rcode = rcodeServerFailure :=
  (c7_amended_servfail_iff cfgFb "udp" oracleFail (mkReq qA) qA rfl).mpr
    (Or.inr (Or.inl ⟨by decide, rfl⟩))

/-- C10: normalization happens only at lookup time, so a configured key
carrying an uppercase letter or a trailing dot can never equal the
normalized name of any incoming question (question names come from the
wire, where an empty label — a name ending in two dots — cannot occur):
the entry is unreachable because the lookup compares the normalized query
name against the stored key verbatim. -/
theorem c10_denormalized_keys_unreachable
    (cfg : Config) (q : Question) (key ip : String)
    (_hmem : (key, ip) ∈ cfg.records)
    (hk : (∃ c ∈ key.data, c.isUpper = true) ∨ key.data.getLast? = some '.')
    (hw : endsTwoDots q.name = false) :
    normalizeName q.name ≠ key := by
  intro heq
  have hdata : key.data = (trimTrailingDot q.name).data.map Char.toLower := by
    rw [← heq]; rfl
  cases hk with
  | inl h =>
    obtain ⟨c, hc, hcu⟩ := h
    rw [hdata] at hc
    obtain ⟨a, -, ha⟩ := List.mem_map.mp hc
    rw [← ha, isUpper_toLower] at hcu
    exact Bool.false_ne_true hcu
  | inr h =>
    rw [hdata, List.getLast?_map] at h
    obtain ⟨d, hd, hdl⟩ := Option.map_eq_some'.mp h
    have hd' : d = '.' := toLower_eq_dot hdl
    subst hd'
    unfold trimTrailingDot at hd
    by_cases hlast : q.name.data.getLast? = some '.'
    · rw [if_pos hlast] at hd
      have hd2 : q.name.data.dropLast.getLast? = some '.' := hd
      unfold endsTwoDots at hw
      rw [hlast, hd2] at hw
      simp at hw
    · rw [if_neg hlast] at hd
      exact hlast hd

/-- C10 witness: the theorem applied to the snapshot whose key
"Weird.Test" carries uppercase letters and to the lowercase question
"weird.test.": the normalized query name cannot match the key. -/
theorem c10_witness :
    normalizeName qWeird.name ≠ "Weird.Test" :=
  c10_denormalized_keys_unreachable cfgUpperKey qWeird "Weird.Test" "10.0.0.2"
    (by decide) (Or.inl (by decide)) (by decide)

end SimpleDnsProxy
